import Mathlib

/-!
Verification of the Switch capacity-expansion model-formulation engine.

This file gives a shallow embedding of the core model components of the
Switch power-system planning model: the zonal energy-balance registry
(`switch_model/balancing/load_zones.py`), the generation build ledger
(`switch_model/generators/core/build.py`), the storage operation engine
(`switch_model/generators/extensions/storage.py`) and the transmission
dispatch engine (`switch_model/transmission/transport/dispatch.py`).

Numeric model parameters and solver values are embedded as exact
rationals (`ℚ`); the state-of-charge recursion, which involves real
exponentiation and logarithms (`math.log`, `**` on floats), is embedded
over `ℝ`.  Pyomo index sets are embedded as lists; Pyomo `Param`
defaults of `float("inf")`, which the source uses as "no value
specified" sentinels, are embedded as `Option ℚ` with `none` standing
for the infinite sentinel.  A Pyomo `Constraint` whose rule can return
`Constraint.Skip` is embedded as an `Option Prop`, with `none` meaning
the constraint is skipped (not emitted).
-/

namespace Switch

/-- Static model data: parameters and index sets of a constructed model
instance.  Fields mirror the Pyomo components of the same names.
Components whose defining module is outside the verified core
(`TPS_FOR_GEN` from `generators/core/dispatch.py`, and the transmission
build data `trans_d_line`, `trans_efficiency`, `TX_CONNECTIONS_TO_ZONE`
from `transmission/transport/build.py`) are taken as abstract data. -/
structure SwitchModel where
  PERIODS : List ℚ
  period_start : ℚ → ℚ
  period_length_years : ℚ → ℚ
  TIMEPOINTS : List ℕ
  tp_period : ℕ → ℚ
  tp_duration_hrs : ℕ → ℚ
  tp_previous : ℕ → ℕ
  TPS_IN_PERIOD : ℚ → List ℕ
  LOAD_ZONES : List String
  Zone_Power_Injections : List String
  Zone_Power_Withdrawals : List String
  GENERATION_PROJECTS : List String
  gen_max_age : String → ℚ
  gen_retirement_year : String → ℚ
  GEN_BLD_YRS : List (String × ℚ)
  PREDETERMINED_GEN_BLD_YRS : List (String × ℚ)
  gen_predetermined_cap : String × ℚ → ℚ
  CAPACITY_LIMITED_GENS : List String
  gen_capacity_limit_mw : String → ℚ
  gen_min_build_capacity : String → ℚ
  STORAGE_GENS : List String
  gen_storage_efficiency : String → ℚ
  gen_discharge_efficiency : String → ℚ
  gen_self_discharge_rate : String → ℚ
  gen_min_soc : String → ℚ
  gen_storage_energy_to_power_ratio : String → Option ℚ
  gen_storage_max_cycles_per_year : String → Option ℚ
  gen_predetermined_storage_energy_mwh : String × ℚ → Option ℚ
  TPS_FOR_GEN : String → List ℕ
  DIRECTIONAL_TX : List (String × String)
  trans_d_line : String → String → String
  trans_efficiency : String → ℚ
  TX_CONNECTIONS_TO_ZONE : String → List String

/-- A candidate solution: one value per decision variable, plus the value
of every component registered in the balance lists (`getattr(m, c)[z, t]`
in `Zone_Energy_Balance`) and of the externally defined capacity
expression `TxCapacityNameplateAvailable` (from
`transmission/transport/build.py`, outside the verified core). -/
structure Sol where
  BuildGen : String × ℚ → ℚ
  BuildStorageEnergy : String × ℚ → ℚ
  BuildMinGenCap : String × ℚ → ℚ
  ChargeStorage : String × ℕ → ℚ
  DispatchGen : String × ℕ → ℚ
  StateOfCharge : String × ℕ → ℚ
  DispatchTx : String × String × ℕ → ℚ
  TxCapacityNameplateAvailable : String × ℚ → ℚ
  component : String → String → ℕ → ℚ

/-! ### Load-zone ledger (`balancing/load_zones.py`) -/

/-- `ZONE_TIMEPOINTS`: the cross product of load zones and timepoints,
used for indexing (`load_zones.py`, `define_components`). -/
def ZONE_TIMEPOINTS (m : SwitchModel) : List (String × ℕ) :=
  m.LOAD_ZONES.product m.TIMEPOINTS

/-- Sum of the values of a list of registered components at `(z, t)`:
`sum(getattr(m, component)[z, t] for component in ...)`. -/
def sumComponents (sol : Sol) (names : List String) (z : String) (t : ℕ) : ℚ :=
  (names.map (fun c => sol.component c z t)).sum

/-- `Zone_Energy_Balance[z, t]` (`load_zones.py`,
`define_dynamic_components`): the registered injection terms sum to the
registered withdrawal terms. -/
def Zone_Energy_Balance (m : SwitchModel) (sol : Sol) (z : String) (t : ℕ) : Prop :=
  sumComponents sol m.Zone_Power_Injections z t
    = sumComponents sol m.Zone_Power_Withdrawals z t

/-! ### Generation build ledger (`generators/core/build.py`) -/

/-- `NEW_GEN_BLD_YRS = GEN_BLD_YRS - PREDETERMINED_GEN_BLD_YRS`. -/
def NEW_GEN_BLD_YRS (m : SwitchModel) : List (String × ℚ) :=
  m.GEN_BLD_YRS.filter (fun gb => decide (gb ∉ m.PREDETERMINED_GEN_BLD_YRS))

/-- `PREDETERMINED_BLD_YRS`: the set of all years in which a
predetermined build occurs (`set(bld_yr for (g, bld_yr) in
m.PREDETERMINED_GEN_BLD_YRS)`). -/
def PREDETERMINED_BLD_YRS (m : SwitchModel) : List ℚ :=
  (m.PREDETERMINED_GEN_BLD_YRS.map Prod.snd).dedup

/-- The `online` year computed by `gen_build_can_operate_in_period`:
`m.period_start[build_year]` when the build year names a period
(`build_year in m.PERIODS`), the build year itself otherwise. -/
def gen_build_online (m : SwitchModel) (build_year : ℚ) : ℚ :=
  if build_year ∈ m.PERIODS then m.period_start build_year else build_year

/-- The `retirement` year computed by `gen_build_can_operate_in_period`:
`online + gen_max_age[g]` unless an explicit `gen_retirement_year` is
given (the parameter defaults to 0, which means "not given"). -/
def gen_build_retirement (m : SwitchModel) (g : String) (build_year : ℚ) : ℚ :=
  if m.gen_retirement_year g = 0 then gen_build_online m build_year + m.gen_max_age g
  else m.gen_retirement_year g

/-- `gen_build_can_operate_in_period(m, g, build_year, period)` from
`build.py`: the build is operable in `period` when
`online <= period_start + 0.5 * period_length_years < retirement`. -/
def gen_build_can_operate_in_period (m : SwitchModel) (g : String)
    (build_year period : ℚ) : Prop :=
  gen_build_online m build_year
      ≤ m.period_start period + (1 / 2 : ℚ) * m.period_length_years period
    ∧ m.period_start period + (1 / 2 : ℚ) * m.period_length_years period
      < gen_build_retirement m g build_year

instance (m : SwitchModel) (g : String) (build_year period : ℚ) :
    Decidable (gen_build_can_operate_in_period m g build_year period) := by
  unfold gen_build_can_operate_in_period
  infer_instance

/-- `no_predetermined_bld_yr_vs_period_conflict`: the `BuildCheck` over
`PREDETERMINED_BLD_YRS × PERIODS` with rule `bld_yr != p`.  A failed
`BuildCheck` aborts model construction before any constraint is built. -/
def no_predetermined_bld_yr_vs_period_conflict (m : SwitchModel) : Prop :=
  ∀ bld_yr ∈ PREDETERMINED_BLD_YRS m, ∀ p ∈ m.PERIODS, bld_yr ≠ p

/-- `BLD_YRS_FOR_GEN[g]`: build years appearing with project `g` in
`GEN_BLD_YRS`. -/
def BLD_YRS_FOR_GEN (m : SwitchModel) (g : String) : List ℚ :=
  (m.GEN_BLD_YRS.filter (fun gb => decide (gb.1 = g))).map Prod.snd

/-- `BLD_YRS_FOR_GEN_PERIOD[g, period]`: the build years of `g` that can
still be online in `period`. -/
def BLD_YRS_FOR_GEN_PERIOD (m : SwitchModel) (g : String) (period : ℚ) : List ℚ :=
  (BLD_YRS_FOR_GEN m g).filter
    (fun bld_yr => decide (gen_build_can_operate_in_period m g bld_yr period))

/-- `PERIODS_FOR_GEN[g]`: periods in which some build of `g` is online. -/
def PERIODS_FOR_GEN (m : SwitchModel) (g : String) : List ℚ :=
  m.PERIODS.filter (fun p => decide (0 < (BLD_YRS_FOR_GEN_PERIOD m g p).length))

/-- `GenCapacity[g, period]`: the sum of `BuildGen` over
`BLD_YRS_FOR_GEN_PERIOD[g, period]`. -/
def GenCapacity (m : SwitchModel) (BuildGen : String × ℚ → ℚ)
    (g : String) (period : ℚ) : ℚ :=
  ((BLD_YRS_FOR_GEN_PERIOD m g period).map (fun bld_yr => BuildGen (g, bld_yr))).sum

/-- `bounds_BuildGen(model, g, bld_yr)`: `(lower, upper)` bounds on
`BuildGen[g, bld_yr]`; `none` is Pyomo's `None` (no upper bound). -/
def bounds_BuildGen (m : SwitchModel) (g : String) (bld_yr : ℚ) : ℚ × Option ℚ :=
  if (g, bld_yr) ∈ m.PREDETERMINED_GEN_BLD_YRS then
    (m.gen_predetermined_cap (g, bld_yr), some (m.gen_predetermined_cap (g, bld_yr)))
  else if g ∈ m.CAPACITY_LIMITED_GENS then
    (0, some (m.gen_capacity_limit_mw g))
  else
    (0, none)

/-- A value respects a `(lower, upper)` bounds pair when it is at least
the lower bound and at most the upper bound whenever one is present. -/
def respectsBounds (b : ℚ × Option ℚ) (v : ℚ) : Prop :=
  b.1 ≤ v ∧ ∀ ub, b.2 = some ub → v ≤ ub

/-- `NEW_GEN_WITH_MIN_BUILD_YEARS`: the members of `NEW_GEN_BLD_YRS`
whose project has `gen_min_build_capacity > 0`. -/
def NEW_GEN_WITH_MIN_BUILD_YEARS (m : SwitchModel) : List (String × ℚ) :=
  (NEW_GEN_BLD_YRS m).filter (fun gb => decide (0 < m.gen_min_build_capacity gb.1))

/-- `Enforce_Min_Build_Lower[g, p]`:
`BuildMinGenCap[g, p] * gen_min_build_capacity[g] <= BuildGen[g, p]`. -/
def Enforce_Min_Build_Lower (m : SwitchModel) (sol : Sol) (g : String) (p : ℚ) : Prop :=
  sol.BuildMinGenCap (g, p) * m.gen_min_build_capacity g ≤ sol.BuildGen (g, p)

/-- The big-M constant `mod._gen_max_cap_for_binary_constraints = 10**5`. -/
def gen_max_cap_for_binary_constraints : ℚ := 10 ^ 5

/-- `Enforce_Min_Build_Upper[g, p]`:
`BuildGen[g, p] <= BuildMinGenCap[g, p] * 10**5`. -/
def Enforce_Min_Build_Upper (m : SwitchModel) (sol : Sol) (g : String) (p : ℚ) : Prop :=
  sol.BuildGen (g, p) ≤ sol.BuildMinGenCap (g, p) * gen_max_cap_for_binary_constraints

/-! ### Storage operation engine (`generators/extensions/storage.py`) -/

/-- `PREDETERMINED_STORAGE_GEN_BLD_YRS`: members of
`PREDETERMINED_GEN_BLD_YRS` for which
`gen_predetermined_storage_energy_mwh` has a value. -/
def PREDETERMINED_STORAGE_GEN_BLD_YRS (m : SwitchModel) : List (String × ℚ) :=
  m.PREDETERMINED_GEN_BLD_YRS.filter
    (fun gb => (m.gen_predetermined_storage_energy_mwh gb).isSome)

/-- `bounds_BuildStorageEnergy(m, g, bld_yr)`: pinned to the
predetermined storage energy when `(g, bld_yr)` is in
`PREDETERMINED_STORAGE_GEN_BLD_YRS`, otherwise `(0, None)`. -/
def bounds_BuildStorageEnergy (m : SwitchModel) (g : String) (bld_yr : ℚ) :
    ℚ × Option ℚ :=
  match m.gen_predetermined_storage_energy_mwh (g, bld_yr) with
  | some v =>
      if (g, bld_yr) ∈ m.PREDETERMINED_GEN_BLD_YRS then (v, some v) else (0, none)
  | none => (0, none)

/-- `StorageEnergyCapacity[g, period]`: the sum of `BuildStorageEnergy`
over `BLD_YRS_FOR_GEN_PERIOD[g, period]`. -/
def StorageEnergyCapacity (m : SwitchModel) (BuildStorageEnergy : String × ℚ → ℚ)
    (g : String) (period : ℚ) : ℚ :=
  ((BLD_YRS_FOR_GEN_PERIOD m g period).map
    (fun bld_yr => BuildStorageEnergy (g, bld_yr))).sum

/-- `Enforce_Fixed_Energy_Storage_Ratio[g, y]`: skipped (`none`,
Pyomo's `Constraint.Skip`) exactly when
`gen_storage_energy_to_power_ratio[g] == float("inf")`, i.e. no value
was specified; otherwise requires
`BuildStorageEnergy[g, y] == ratio * BuildGen[g, y]`. -/
def Enforce_Fixed_Energy_Storage_Ratio (m : SwitchModel) (sol : Sol)
    (g : String) (y : ℚ) : Option Prop :=
  match m.gen_storage_energy_to_power_ratio g with
  | none => none
  | some ratio =>
      some (sol.BuildStorageEnergy (g, y) = ratio * sol.BuildGen (g, y))

/-- `State_Of_Charge_Upper_Limit[g, t]`:
`StateOfCharge[g, t] <= StorageEnergyCapacity[g, tp_period[t]]`. -/
def State_Of_Charge_Upper_Limit (m : SwitchModel) (sol : Sol)
    (g : String) (t : ℕ) : Prop :=
  sol.StateOfCharge (g, t)
    ≤ StorageEnergyCapacity m sol.BuildStorageEnergy g (m.tp_period t)

/-- `State_Of_Charge_Lower_Limit[g, t]`:
`StateOfCharge[g, t] >= StorageEnergyCapacity[g, tp_period[t]] * gen_min_soc[g]`. -/
def State_Of_Charge_Lower_Limit (m : SwitchModel) (sol : Sol)
    (g : String) (t : ℕ) : Prop :=
  sol.StateOfCharge (g, t)
    ≥ StorageEnergyCapacity m sol.BuildStorageEnergy g (m.tp_period t)
      * m.gen_min_soc g

/-- `Battery_Cycle_Limit[g, p]`: skipped (`none`) exactly when
`gen_storage_max_cycles_per_year[g] == float("inf")`; otherwise requires
the discharged energy in the period to stay within
`max_cycles * StorageEnergyCapacity * period_length_years`. -/
def Battery_Cycle_Limit (m : SwitchModel) (sol : Sol)
    (g : String) (p : ℚ) : Option Prop :=
  match m.gen_storage_max_cycles_per_year g with
  | none => none
  | some cycles =>
      some (((m.TPS_IN_PERIOD p).map
          (fun tp => sol.DispatchGen (g, tp) * m.tp_duration_hrs tp)).sum
        ≤ cycles * StorageEnergyCapacity m sol.BuildStorageEnergy g p
          * m.period_length_years p)

/-- `StorageFlow[g, t] = ChargeStorage[g, t] * gen_storage_efficiency[g]
- DispatchGen[g, t] / gen_discharge_efficiency[g]`.  Embedded over `ℝ`
because it feeds the transcendental state-of-charge recursion. -/
noncomputable def StorageFlow (m : SwitchModel)
    (ChargeStorage DispatchGen : String → ℕ → ℝ) (g : String) (t : ℕ) : ℝ :=
  ChargeStorage g t * (m.gen_storage_efficiency g : ℝ)
    - DispatchGen g t / (m.gen_discharge_efficiency g : ℝ)

/-- `Track_State_Of_Charge_rule(m, g, t)` from `storage.py`: with
`storage_efficiency = 1 - gen_self_discharge_rate[g]` and
`tp_duration_days = tp_duration_hrs[t] / 24`, requires
`StateOfCharge[g, t] == StateOfCharge[g, tp_previous[t]] *
storage_efficiency ** tp_duration_days + StorageFlow[g, t] * f`, where
`f` is `tp_duration_hrs[t]` when `storage_efficiency == 1` and
`24 * (storage_efficiency ** tp_duration_days - 1) /
log(storage_efficiency)` otherwise. -/
def Track_State_Of_Charge (m : SwitchModel)
    (StateOfCharge ChargeStorage DispatchGen : String → ℕ → ℝ)
    (g : String) (t : ℕ) : Prop :=
  StateOfCharge g t
    = StateOfCharge g (m.tp_previous t)
        * (1 - (m.gen_self_discharge_rate g : ℝ))
          ^ ((m.tp_duration_hrs t : ℝ) / 24)
      + StorageFlow m ChargeStorage DispatchGen g t
        * (if (1 - (m.gen_self_discharge_rate g : ℝ)) = 1 then
            (m.tp_duration_hrs t : ℝ)
          else
            24 * ((1 - (m.gen_self_discharge_rate g : ℝ))
                ^ ((m.tp_duration_hrs t : ℝ) / 24) - 1)
              / Real.log (1 - (m.gen_self_discharge_rate g : ℝ)))

/-- `load_inputs` in `storage.py` sets the `STORAGE_GENS` set to exactly
the keys of the `gen_storage_efficiency` input data
(`switch_data.data(name="gen_storage_efficiency").keys()`). -/
def load_STORAGE_GENS (effData : List (String × ℚ)) : List String :=
  effData.map Prod.fst

/-- Pyomo's mandatory-parameter check for `gen_storage_efficiency` (a
`Param` over `STORAGE_GENS` with no default): construction of the
parameter succeeds exactly when every member of `STORAGE_GENS` has a
value in the input data. -/
def gen_storage_efficiency_data_complete (effData : List (String × ℚ)) : Prop :=
  ∀ g ∈ load_STORAGE_GENS effData, (effData.lookup g).isSome = true

/-! ### Transmission dispatch engine (`transmission/transport/dispatch.py`) -/

/-- `Maximum_DispatchTx[zone_from, zone_to, tp]`: dispatch stays below
the available nameplate capacity of the underlying (undirected) line in
the timepoint's period. -/
def Maximum_DispatchTx (m : SwitchModel) (sol : Sol)
    (zone_from zone_to : String) (tp : ℕ) : Prop :=
  sol.DispatchTx (zone_from, zone_to, tp)
    ≤ sol.TxCapacityNameplateAvailable
        (m.trans_d_line zone_from zone_to, m.tp_period tp)

/-- `TxPowerSent[zone_from, zone_to, tp] = DispatchTx[zone_from, zone_to, tp]`. -/
def TxPowerSent (m : SwitchModel) (sol : Sol)
    (zone_from zone_to : String) (tp : ℕ) : ℚ :=
  sol.DispatchTx (zone_from, zone_to, tp)

/-- `TxPowerReceived[zone_from, zone_to, tp] =
DispatchTx[zone_from, zone_to, tp] * trans_efficiency[trans_d_line[...]]`. -/
def TxPowerReceived (m : SwitchModel) (sol : Sol)
    (zone_from zone_to : String) (tp : ℕ) : ℚ :=
  sol.DispatchTx (zone_from, zone_to, tp)
    * m.trans_efficiency (m.trans_d_line zone_from zone_to)

/-- `TXPowerNet[z, tp]`: received power over corridors into `z` minus
sent power over corridors out of `z`. -/
def TXPowerNet (m : SwitchModel) (sol : Sol) (z : String) (tp : ℕ) : ℚ :=
  ((m.TX_CONNECTIONS_TO_ZONE z).map
      (fun zone_from => TxPowerReceived m sol zone_from z tp)).sum
    - ((m.TX_CONNECTIONS_TO_ZONE z).map
      (fun zone_to => TxPowerSent m sol z zone_to tp)).sum

/-- `mod.Zone_Power_Injections.append('TXPowerNet')` in
`transport/dispatch.py`: the registration step appends the net
transmission term to whatever injections list has been built so far. -/
def transport_dispatch_register (injections : List String) : List String :=
  injections ++ ["TXPowerNet"]

/-! ### A small concrete model instance, used to witness the theorems -/

/-- A two-period, one-zone toy instance: project `A` has a predetermined
100 MW / 200 MWh build in 2015 and is a storage project; project `B` is
a new capacity-limited project with a minimum build requirement. -/
def exModel : SwitchModel where
  PERIODS := [2020, 2030]
  period_start := fun p => p
  period_length_years := fun _ => 10
  TIMEPOINTS := [0, 1]
  tp_period := fun _ => 2020
  tp_duration_hrs := fun _ => 1
  tp_previous := fun t => if t = 0 then 1 else 0
  TPS_IN_PERIOD := fun p => if p = 2020 then [0, 1] else []
  LOAD_ZONES := ["Z1"]
  Zone_Power_Injections := ["GenInj"]
  Zone_Power_Withdrawals := ["zone_demand_mw"]
  GENERATION_PROJECTS := ["A", "B"]
  gen_max_age := fun _ => 20
  gen_retirement_year := fun _ => 0
  GEN_BLD_YRS := [("A", 2015), ("A", 2020), ("B", 2020)]
  PREDETERMINED_GEN_BLD_YRS := [("A", 2015)]
  gen_predetermined_cap := fun _ => 100
  CAPACITY_LIMITED_GENS := ["B"]
  gen_capacity_limit_mw := fun _ => 50
  gen_min_build_capacity := fun g => if g = "B" then 10 else 0
  STORAGE_GENS := ["A"]
  gen_storage_efficiency := fun _ => 3 / 4
  gen_discharge_efficiency := fun _ => 1
  gen_self_discharge_rate := fun _ => 0
  gen_min_soc := fun _ => 1 / 10
  gen_storage_energy_to_power_ratio := fun _ => none
  gen_storage_max_cycles_per_year := fun _ => some 365
  gen_predetermined_storage_energy_mwh :=
    fun gb => if gb = ("A", 2015) then some 200 else none
  TPS_FOR_GEN := fun _ => [0, 1]
  DIRECTIONAL_TX := [("Z1", "Z2"), ("Z2", "Z1")]
  trans_d_line := fun _ _ => "L1"
  trans_efficiency := fun _ => 19 / 20
  TX_CONNECTIONS_TO_ZONE := fun z => if z = "Z1" then ["Z2"] else ["Z1"]

/-- A feasible assignment for `exModel`: the predetermined builds take
their historical values, nothing else is built or dispatched, the zonal
ledger carries one 80 MW injection and one 80 MW withdrawal. -/
def exSol : Sol where
  BuildGen := fun gb => if gb = ("A", 2015) then 100 else 0
  BuildStorageEnergy := fun gb => if gb = ("A", 2015) then 200 else 0
  BuildMinGenCap := fun _ => 0
  ChargeStorage := fun _ => 0
  DispatchGen := fun _ => 0
  StateOfCharge := fun _ => 20
  DispatchTx := fun _ => 5
  TxCapacityNameplateAvailable := fun _ => 10
  component := fun c _ _ =>
    if c = "GenInj" then 80 else if c = "zone_demand_mw" then 80 else 0

/-- The `gen_storage_efficiency` input data used as concrete input for
the storage `load_inputs` behaviour: project `A` has a value, project
`B` (also listed in `exModel.GENERATION_PROJECTS`) does not. -/
def exEffData : List (String × ℚ) := [("A", 3 / 4)]

/-- Constant real-valued state of charge, for witnessing the
state-of-charge recursion. -/
noncomputable def exSocReal : String → ℕ → ℝ := fun _ _ => 5

/-- Constant real-valued charging decision. -/
noncomputable def exChargeReal : String → ℕ → ℝ := fun _ _ => 0

/-- Constant real-valued discharging decision. -/
noncomputable def exDispatchReal : String → ℕ → ℝ := fun _ _ => 0

/-! ### Helper lemmas -/

/-- A lookup in an association list succeeds exactly when the key
appears among the mapped-out keys. -/
theorem lookup_isSome_iff_mem_keys (l : List (String × ℚ)) (g : String) :
    (l.lookup g).isSome = true ↔ g ∈ l.map Prod.fst := by
  induction l with
  | nil => simp
  | cons x t ih =>
    obtain ⟨k, v⟩ := x
    by_cases h : g = k
    · simp [List.lookup, h]
    · rw [List.lookup]
      rw [show (g == k) = false from beq_eq_false_iff_ne.mpr h]
      simp only [List.map_cons, List.mem_cons, ih]
      simp [h]

/-! ### Claim theorems -/

/-- Claim C1: the energy-balance constraint is indexed by the full cross
product of load zones and timepoints, and for each such pair requires
the sum of the values of every component registered in the injections
list to equal the sum over the withdrawals list; hence a solution
satisfies all `Zone_Energy_Balance` constraints exactly when the
conservation law holds at every zone and timepoint. -/
theorem C1_zone_energy_balance (m : SwitchModel) (sol : Sol) :
    (∀ zt ∈ ZONE_TIMEPOINTS m, Zone_Energy_Balance m sol zt.1 zt.2)
      ↔ ∀ z ∈ m.LOAD_ZONES, ∀ t ∈ m.TIMEPOINTS,
          ((m.Zone_Power_Injections.map (fun c => sol.component c z t)).sum
            = (m.Zone_Power_Withdrawals.map (fun c => sol.component c z t)).sum) := by
  constructor
  · intro h z hz t ht
    exact h (z, t) (List.mem_product.mpr ⟨hz, ht⟩)
  · intro h zt hzt
    obtain ⟨z, t⟩ := zt
    have hm := List.mem_product.mp hzt
    exact h z hm.1 t hm.2

/-- Claim C1 witness: the balance equivalence instantiated on the
concrete toy model, where the single 80 MW injection matches the single
80 MW withdrawal in every zone and timepoint. -/
theorem C1_zone_energy_balance_witness :
    (∀ zt ∈ ZONE_TIMEPOINTS exModel, Zone_Energy_Balance exModel exSol zt.1 zt.2)
      ↔ ∀ z ∈ exModel.LOAD_ZONES, ∀ t ∈ exModel.TIMEPOINTS,
          ((exModel.Zone_Power_Injections.map (fun c => exSol.component c z t)).sum
            = (exModel.Zone_Power_Withdrawals.map (fun c => exSol.component c z t)).sum) :=
  C1_zone_energy_balance exModel exSol

/-- Claim C2: the state-of-charge tracking constraint equates
`StateOfCharge[g, t]` to the previous state of charge scaled by
`(1 - r) ^ (duration / 24)` plus the flow
`ChargeStorage * charge_efficiency - DispatchGen / discharge_efficiency`
times a conversion factor; the factor is exactly the timepoint duration
in hours when the daily self-discharge rate `r` is zero, and
`24 * ((1 - r) ^ (duration / 24) - 1) / log (1 - r)` when `r` is
nonzero. -/
theorem C2_track_state_of_charge (m : SwitchModel)
    (StateOfCharge ChargeStorage DispatchGen : String → ℕ → ℝ)
    (g : String) (t : ℕ) :
    ((m.gen_self_discharge_rate g : ℝ) = 0 →
      (Track_State_Of_Charge m StateOfCharge ChargeStorage DispatchGen g t ↔
        StateOfCharge g t
          = StateOfCharge g (m.tp_previous t)
              * (1 - (m.gen_self_discharge_rate g : ℝ))
                ^ ((m.tp_duration_hrs t : ℝ) / 24)
            + (ChargeStorage g t * (m.gen_storage_efficiency g : ℝ)
                - DispatchGen g t / (m.gen_discharge_efficiency g : ℝ))
              * (m.tp_duration_hrs t : ℝ)))
    ∧ ((m.gen_self_discharge_rate g : ℝ) ≠ 0 →
      (Track_State_Of_Charge m StateOfCharge ChargeStorage DispatchGen g t ↔
        StateOfCharge g t
          = StateOfCharge g (m.tp_previous t)
              * (1 - (m.gen_self_discharge_rate g : ℝ))
                ^ ((m.tp_duration_hrs t : ℝ) / 24)
            + (ChargeStorage g t * (m.gen_storage_efficiency g : ℝ)
                - DispatchGen g t / (m.gen_discharge_efficiency g : ℝ))
              * (24 * ((1 - (m.gen_self_discharge_rate g : ℝ))
                    ^ ((m.tp_duration_hrs t : ℝ) / 24) - 1)
                  / Real.log (1 - (m.gen_self_discharge_rate g : ℝ))))) := by
  constructor
  · intro hr
    have h1 : (1 : ℝ) - (m.gen_self_discharge_rate g : ℝ) = 1 := by
      rw [hr, sub_zero]
    unfold Track_State_Of_Charge StorageFlow
    rw [if_pos h1]
  · intro hr
    have h1 : ¬((1 : ℝ) - (m.gen_self_discharge_rate g : ℝ) = 1) := fun hc =>
      hr (sub_eq_self.mp hc)
    unfold Track_State_Of_Charge StorageFlow
    rw [if_neg h1]

/-- Claim C2 witness: on the toy model (self-discharge rate 0, one-hour
timepoints) the recursion constraint reduces to the zero-decay linear
form with conversion factor equal to the duration. -/
theorem C2_track_state_of_charge_witness :
    Track_State_Of_Charge exModel exSocReal exChargeReal exDispatchReal "A" 1 ↔
      exSocReal "A" 1
        = exSocReal "A" (exModel.tp_previous 1)
            * (1 - (exModel.gen_self_discharge_rate "A" : ℝ))
              ^ ((exModel.tp_duration_hrs 1 : ℝ) / 24)
          + (exChargeReal "A" 1 * (exModel.gen_storage_efficiency "A" : ℝ)
              - exDispatchReal "A" 1 / (exModel.gen_discharge_efficiency "A" : ℝ))
            * (exModel.tp_duration_hrs 1 : ℝ) :=
  (C2_track_state_of_charge exModel exSocReal exChargeReal exDispatchReal "A" 1).1
    (by norm_num [exModel])

/-- Claim C3: `GenCapacity[g, p]` equals the sum of `BuildGen[g, b]`
over exactly those entries `(g, b)` of `GEN_BLD_YRS` whose operability
test holds for `p`, where the test is
`online <= period_start[p] + 0.5 * period_length_years[p] < retirement`,
`online` is the period start when `b` names a period and `b` itself
otherwise, and `retirement` is `online + gen_max_age[g]` unless an
explicit retirement year is given; and when every `BuildGen` value is
non-negative, `GenCapacity[g, p]` is non-negative. -/
theorem C3_gen_capacity (m : SwitchModel) (BuildGen : String × ℚ → ℚ)
    (g : String) (p : ℚ) (h : ∀ gb, 0 ≤ BuildGen gb) :
    GenCapacity m BuildGen g p
      = ((m.GEN_BLD_YRS.filter (fun gb =>
            decide (gb.1 = g) &&
            decide ((if gb.2 ∈ m.PERIODS then m.period_start gb.2 else gb.2)
                ≤ m.period_start p + (1 / 2 : ℚ) * m.period_length_years p
              ∧ m.period_start p + (1 / 2 : ℚ) * m.period_length_years p
                < (if m.gen_retirement_year g = 0 then
                    (if gb.2 ∈ m.PERIODS then m.period_start gb.2 else gb.2)
                      + m.gen_max_age g
                  else m.gen_retirement_year g)))).map BuildGen).sum
    ∧ 0 ≤ GenCapacity m BuildGen g p := by
  constructor
  · unfold GenCapacity BLD_YRS_FOR_GEN_PERIOD BLD_YRS_FOR_GEN
    rw [List.filter_map, List.filter_filter, List.map_map]
    rw [List.filter_congr (fun a _ => by
      show ((fun b => decide (gen_build_can_operate_in_period m g b p))
              (Prod.snd a) && decide (a.1 = g))
          = (decide (a.1 = g) &&
            decide ((if a.2 ∈ m.PERIODS then m.period_start a.2 else a.2)
                ≤ m.period_start p + (1 / 2 : ℚ) * m.period_length_years p
              ∧ m.period_start p + (1 / 2 : ℚ) * m.period_length_years p
                < (if m.gen_retirement_year g = 0 then
                    (if a.2 ∈ m.PERIODS then m.period_start a.2 else a.2)
                      + m.gen_max_age g
                  else m.gen_retirement_year g)))
      rw [Bool.and_comm]
      refine congrArg _ ?_
      refine (decide_eq_decide).mpr ?_
      unfold gen_build_can_operate_in_period gen_build_online gen_build_retirement
      exact Iff.rfl)]
    refine congrArg List.sum (List.map_congr_left ?_)
    intro a ha
    have hmem := List.of_mem_filter ha
    have h1 : a.1 = g := of_decide_eq_true (Bool.and_elim_left hmem)
    show BuildGen (g, a.2) = BuildGen a
    rw [← h1]
  · refine List.sum_nonneg ?_
    intro x hx
    obtain ⟨b, _, rfl⟩ := List.mem_map.mp hx
    exact h _

/-- Claim C3 witness: on the toy model, period 2020 counts both the 2015
predetermined build and the 2020 investment build of project `A`, and
the capacity is non-negative. -/
theorem C3_gen_capacity_witness : 0 ≤ GenCapacity exModel exSol.BuildGen "A" 2020 :=
  (C3_gen_capacity exModel exSol.BuildGen "A" 2020
    (fun gb => by unfold exSol; dsimp only; split <;> norm_num)).2

/-- Claim C4: in every feasible solution (non-negative state-of-charge
variable, upper-limit constraint and lower-limit constraint satisfied),
`0 <= StateOfCharge[g, t] <= StorageEnergyCapacity[g, period(t)]` and
`StateOfCharge[g, t] >= gen_min_soc[g] * StorageEnergyCapacity[g,
period(t)]`. -/
theorem C4_soc_bounds (m : SwitchModel) (sol : Sol) (g : String) (t : ℕ)
    (h0 : 0 ≤ sol.StateOfCharge (g, t))
    (hub : State_Of_Charge_Upper_Limit m sol g t)
    (hlb : State_Of_Charge_Lower_Limit m sol g t) :
    0 ≤ sol.StateOfCharge (g, t)
    ∧ sol.StateOfCharge (g, t)
        ≤ StorageEnergyCapacity m sol.BuildStorageEnergy g (m.tp_period t)
    ∧ m.gen_min_soc g
          * StorageEnergyCapacity m sol.BuildStorageEnergy g (m.tp_period t)
        ≤ sol.StateOfCharge (g, t) :=
  ⟨h0, hub, by rw [mul_comm]; exact hlb⟩

/-- Claim C4 witness: on the toy model, the 20 MWh state of charge of
project `A` at timepoint 0 sits between the 10% minimum (20 MWh) and
the 200 MWh installed energy capacity. -/
theorem C4_soc_bounds_witness :
    0 ≤ exSol.StateOfCharge ("A", 0)
    ∧ exSol.StateOfCharge ("A", 0)
        ≤ StorageEnergyCapacity exModel exSol.BuildStorageEnergy "A" (exModel.tp_period 0)
    ∧ exModel.gen_min_soc "A"
          * StorageEnergyCapacity exModel exSol.BuildStorageEnergy "A" (exModel.tp_period 0)
        ≤ exSol.StateOfCharge ("A", 0) :=
  C4_soc_bounds exModel exSol "A" 0
    (by norm_num [exSol])
    (by simp [State_Of_Charge_Upper_Limit, StorageEnergyCapacity,
        BLD_YRS_FOR_GEN_PERIOD, BLD_YRS_FOR_GEN, exModel, exSol,
        gen_build_can_operate_in_period, gen_build_online,
        gen_build_retirement, List.filter_cons]; norm_num)
    (by simp [State_Of_Charge_Lower_Limit, StorageEnergyCapacity,
        BLD_YRS_FOR_GEN_PERIOD, BLD_YRS_FOR_GEN, exModel, exSol,
        gen_build_can_operate_in_period, gen_build_online,
        gen_build_retirement, List.filter_cons]; norm_num)

/-- Claim C5: build-variable bounds.  A predetermined `(g, bld_yr)` is
pinned: both bounds equal the predetermined capacity, so a value
respecting the bounds equals the historical value exactly (for power,
and for energy when a predetermined storage energy value exists);
otherwise a capacity-limited project is bounded in
`[0, gen_capacity_limit_mw]` and any other project in `[0, ∞)`. -/
theorem C5_build_bounds (m : SwitchModel) (g : String) (bld_yr : ℚ) (v : ℚ) :
    ((g, bld_yr) ∈ m.PREDETERMINED_GEN_BLD_YRS →
      bounds_BuildGen m g bld_yr
          = (m.gen_predetermined_cap (g, bld_yr),
            some (m.gen_predetermined_cap (g, bld_yr)))
        ∧ (respectsBounds (bounds_BuildGen m g bld_yr) v →
            v = m.gen_predetermined_cap (g, bld_yr)))
    ∧ ((g, bld_yr) ∉ m.PREDETERMINED_GEN_BLD_YRS → g ∈ m.CAPACITY_LIMITED_GENS →
        bounds_BuildGen m g bld_yr = (0, some (m.gen_capacity_limit_mw g)))
    ∧ ((g, bld_yr) ∉ m.PREDETERMINED_GEN_BLD_YRS → g ∉ m.CAPACITY_LIMITED_GENS →
        bounds_BuildGen m g bld_yr = (0, none))
    ∧ (∀ e, m.gen_predetermined_storage_energy_mwh (g, bld_yr) = some e →
        (g, bld_yr) ∈ m.PREDETERMINED_GEN_BLD_YRS →
        bounds_BuildStorageEnergy m g bld_yr = (e, some e)
        ∧ (respectsBounds (bounds_BuildStorageEnergy m g bld_yr) v → v = e))
    ∧ (m.gen_predetermined_storage_energy_mwh (g, bld_yr) = none →
        bounds_BuildStorageEnergy m g bld_yr = (0, none)) := by
  refine ⟨?_, ?_, ?_, ?_, ?_⟩
  · intro hmem
    have hb : bounds_BuildGen m g bld_yr
        = (m.gen_predetermined_cap (g, bld_yr),
          some (m.gen_predetermined_cap (g, bld_yr))) := by
      unfold bounds_BuildGen
      rw [if_pos hmem]
    refine ⟨hb, ?_⟩
    intro hr
    rw [hb] at hr
    exact le_antisymm (hr.2 _ rfl) hr.1
  · intro hmem hcap
    unfold bounds_BuildGen
    rw [if_neg hmem, if_pos hcap]
  · intro hmem hcap
    unfold bounds_BuildGen
    rw [if_neg hmem, if_neg hcap]
  · intro e he hmem
    have hb : bounds_BuildStorageEnergy m g bld_yr = (e, some e) := by
      unfold bounds_BuildStorageEnergy
      rw [he]
      exact if_pos hmem
    refine ⟨hb, ?_⟩
    intro hr
    rw [hb] at hr
    exact le_antisymm (hr.2 _ rfl) hr.1
  · intro hnone
    unfold bounds_BuildStorageEnergy
    rw [hnone]

/-- Claim C5 witness: the predetermined 2015 vintage of project `A` is
pinned at 100 MW of power and 200 MWh of energy capacity. -/
theorem C5_build_bounds_witness :
    bounds_BuildGen exModel "A" 2015
        = (exModel.gen_predetermined_cap ("A", 2015),
          some (exModel.gen_predetermined_cap ("A", 2015)))
    ∧ bounds_BuildStorageEnergy exModel "A" 2015 = (200, some 200) :=
  ⟨((C5_build_bounds exModel "A" 2015 100).1 (by simp [exModel])).1,
    ((C5_build_bounds exModel "A" 2015 100).2.2.2.1 200
      (by simp [exModel]) (by simp [exModel])).1⟩

/-- Claim C6: the minimum-build gate.  `(g, y)` carries a gate variable
and the `Enforce_Min_Build_Lower` / `Enforce_Min_Build_Upper` pair
exactly when it is a new build year with a positive
`gen_min_build_capacity`; in every feasible solution, gate 0 forces
`BuildGen[g, y] = 0` and gate 1 forces
`gen_min_build_capacity[g] <= BuildGen[g, y] <= 10^5`. -/
theorem C6_min_build (m : SwitchModel) (sol : Sol) (g : String) (y : ℚ)
    (hdom : 0 ≤ sol.BuildGen (g, y))
    (hlo : Enforce_Min_Build_Lower m sol g y)
    (hup : Enforce_Min_Build_Upper m sol g y) :
    ((g, y) ∈ NEW_GEN_WITH_MIN_BUILD_YEARS m
        ↔ (g, y) ∈ NEW_GEN_BLD_YRS m ∧ 0 < m.gen_min_build_capacity g)
    ∧ (sol.BuildMinGenCap (g, y) = 0 → sol.BuildGen (g, y) = 0)
    ∧ (sol.BuildMinGenCap (g, y) = 1 →
        m.gen_min_build_capacity g ≤ sol.BuildGen (g, y)
        ∧ sol.BuildGen (g, y) ≤ gen_max_cap_for_binary_constraints)
    ∧ gen_max_cap_for_binary_constraints = 10 ^ 5 := by
  refine ⟨?_, ?_, ?_, rfl⟩
  · simp [NEW_GEN_WITH_MIN_BUILD_YEARS, List.mem_filter]
  · intro h0
    unfold Enforce_Min_Build_Upper at hup
    rw [h0, zero_mul] at hup
    exact le_antisymm hup hdom
  · intro h1
    unfold Enforce_Min_Build_Lower at hlo
    unfold Enforce_Min_Build_Upper at hup
    rw [h1, one_mul] at hlo hup
    exact ⟨hlo, hup⟩

/-- Claim C6 witness: the new 2020 vintage of project `B` (minimum build
10 MW) with its gate at 0 and no build, a feasible configuration in
which the gate conclusions hold. -/
theorem C6_min_build_witness :
    (("B", 2020) ∈ NEW_GEN_WITH_MIN_BUILD_YEARS exModel
        ↔ ("B", 2020) ∈ NEW_GEN_BLD_YRS exModel
          ∧ 0 < exModel.gen_min_build_capacity "B")
    ∧ (exSol.BuildMinGenCap ("B", 2020) = 0 → exSol.BuildGen ("B", 2020) = 0)
    ∧ (exSol.BuildMinGenCap ("B", 2020) = 1 →
        exModel.gen_min_build_capacity "B" ≤ exSol.BuildGen ("B", 2020)
        ∧ exSol.BuildGen ("B", 2020) ≤ gen_max_cap_for_binary_constraints)
    ∧ gen_max_cap_for_binary_constraints = 10 ^ 5 :=
  C6_min_build exModel exSol "B" 2020
    (by norm_num [exSol])
    (by norm_num [Enforce_Min_Build_Lower, exSol, exModel])
    (by norm_num [Enforce_Min_Build_Upper, exSol, gen_max_cap_for_binary_constraints])

/-- Claim C7: infinite sentinel values suppress constraint emission.
The fixed energy/power-ratio constraint is skipped (`none`) exactly when
the ratio parameter carries the infinite sentinel, and otherwise
requires `BuildStorageEnergy = ratio * BuildGen`; the cycle-limit
constraint is skipped exactly when the max-cycles parameter carries the
infinite sentinel, and otherwise bounds the discharged energy of the
period by `max_cycles * StorageEnergyCapacity * period_length_years`. -/
theorem C7_infinite_sentinels (m : SwitchModel) (sol : Sol)
    (g : String) (y p : ℚ) :
    (Enforce_Fixed_Energy_Storage_Ratio m sol g y = none
        ↔ m.gen_storage_energy_to_power_ratio g = none)
    ∧ (∀ ratio, m.gen_storage_energy_to_power_ratio g = some ratio →
        Enforce_Fixed_Energy_Storage_Ratio m sol g y
          = some (sol.BuildStorageEnergy (g, y) = ratio * sol.BuildGen (g, y)))
    ∧ (Battery_Cycle_Limit m sol g p = none
        ↔ m.gen_storage_max_cycles_per_year g = none)
    ∧ (∀ cycles, m.gen_storage_max_cycles_per_year g = some cycles →
        Battery_Cycle_Limit m sol g p
          = some (((m.TPS_IN_PERIOD p).map
              (fun tp => sol.DispatchGen (g, tp) * m.tp_duration_hrs tp)).sum
            ≤ cycles * StorageEnergyCapacity m sol.BuildStorageEnergy g p
              * m.period_length_years p)) := by
  refine ⟨?_, ?_, ?_, ?_⟩
  · cases hr : m.gen_storage_energy_to_power_ratio g <;>
      simp [Enforce_Fixed_Energy_Storage_Ratio, hr]
  · intro ratio hr
    simp [Enforce_Fixed_Energy_Storage_Ratio, hr]
  · cases hc : m.gen_storage_max_cycles_per_year g <;>
      simp [Battery_Cycle_Limit, hc]
  · intro cycles hc
    simp [Battery_Cycle_Limit, hc]

/-- Claim C7 witness: on the toy model project `A` has no energy/power
ratio (so the ratio constraint is skipped) and a 365 cycles/year limit
(so the cycle constraint is emitted with that bound). -/
theorem C7_infinite_sentinels_witness :
    (Enforce_Fixed_Energy_Storage_Ratio exModel exSol "A" 2015 = none
        ↔ exModel.gen_storage_energy_to_power_ratio "A" = none)
    ∧ Battery_Cycle_Limit exModel exSol "A" 2020
        = some (((exModel.TPS_IN_PERIOD 2020).map
            (fun tp => exSol.DispatchGen ("A", tp) * exModel.tp_duration_hrs tp)).sum
          ≤ 365 * StorageEnergyCapacity exModel exSol.BuildStorageEnergy "A" 2020
            * exModel.period_length_years 2020) :=
  ⟨(C7_infinite_sentinels exModel exSol "A" 2015 2020).1,
    (C7_infinite_sentinels exModel exSol "A" 2015 2020).2.2.2 365
      (by simp [exModel])⟩

/-- Claim C8: transmission dispatch.  In a feasible solution the
directional dispatch is at most the available nameplate capacity of the
underlying undirected line for the timepoint's period; received power is
sent power times the line efficiency; `TXPowerNet[z, tp]` is the sum of
received power over corridors into `z` minus sent power over corridors
out of `z`; and the `TXPowerNet` term is registered in the zonal
injections list. -/
theorem C8_transmission_dispatch (m : SwitchModel) (sol : Sol)
    (zone_from zone_to z : String) (tp : ℕ)
    (h : Maximum_DispatchTx m sol zone_from zone_to tp) :
    sol.DispatchTx (zone_from, zone_to, tp)
        ≤ sol.TxCapacityNameplateAvailable
            (m.trans_d_line zone_from zone_to, m.tp_period tp)
    ∧ TxPowerReceived m sol zone_from zone_to tp
        = TxPowerSent m sol zone_from zone_to tp
          * m.trans_efficiency (m.trans_d_line zone_from zone_to)
    ∧ TXPowerNet m sol z tp
        = ((m.TX_CONNECTIONS_TO_ZONE z).map
            (fun zf => TxPowerReceived m sol zf z tp)).sum
          - ((m.TX_CONNECTIONS_TO_ZONE z).map
            (fun z2 => TxPowerSent m sol z z2 tp)).sum
    ∧ "TXPowerNet" ∈ transport_dispatch_register m.Zone_Power_Injections :=
  ⟨h, rfl, rfl, by simp [transport_dispatch_register]⟩

/-- Claim C8 witness: on the toy model the 5 MW dispatch from `Z1` to
`Z2` respects the 10 MW available capacity, and the net-transmission
term is registered. -/
theorem C8_transmission_dispatch_witness :
    exSol.DispatchTx ("Z1", "Z2", 0)
        ≤ exSol.TxCapacityNameplateAvailable
            (exModel.trans_d_line "Z1" "Z2", exModel.tp_period 0)
    ∧ "TXPowerNet" ∈ transport_dispatch_register exModel.Zone_Power_Injections :=
  ⟨(C8_transmission_dispatch exModel exSol "Z1" "Z2" "Z1" 0
      (by norm_num [Maximum_DispatchTx, exSol])).1,
    (C8_transmission_dispatch exModel exSol "Z1" "Z2" "Z1" 0
      (by norm_num [Maximum_DispatchTx, exSol])).2.2.2⟩

/-- Claim C9: the `no_predetermined_bld_yr_vs_period_conflict` build
check passes exactly when no predetermined build year equals, in value,
any period label; equivalently, it fails exactly when some predetermined
`(g, bld_yr)` has `bld_yr` equal to some period label.  A failed
`BuildCheck` aborts model construction before any constraint is built. -/
theorem C9_no_predetermined_vs_period_conflict (m : SwitchModel) :
    (no_predetermined_bld_yr_vs_period_conflict m
        ↔ ∀ gb ∈ m.PREDETERMINED_GEN_BLD_YRS, ∀ p ∈ m.PERIODS, gb.2 ≠ p)
    ∧ (¬ no_predetermined_bld_yr_vs_period_conflict m
        ↔ ∃ gb ∈ m.PREDETERMINED_GEN_BLD_YRS, ∃ p ∈ m.PERIODS, gb.2 = p) := by
  have h1 : no_predetermined_bld_yr_vs_period_conflict m
      ↔ ∀ gb ∈ m.PREDETERMINED_GEN_BLD_YRS, ∀ p ∈ m.PERIODS, gb.2 ≠ p := by
    unfold no_predetermined_bld_yr_vs_period_conflict PREDETERMINED_BLD_YRS
    constructor
    · intro h gb hgb p hp
      exact h gb.2
        (by rw [List.mem_dedup]; exact List.mem_map.mpr ⟨gb, hgb, rfl⟩) p hp
    · intro h b hb p hp
      rw [List.mem_dedup] at hb
      obtain ⟨gb, hgb, rfl⟩ := List.mem_map.mp hb
      exact h gb hgb p hp
  refine ⟨h1, ?_⟩
  rw [h1]
  push_neg
  rfl

/-- Claim C9 witness: on the toy model the predetermined build year 2015
collides with no period label, so the build check passes. -/
theorem C9_no_predetermined_vs_period_conflict_witness :
    no_predetermined_bld_yr_vs_period_conflict exModel :=
  ((C9_no_predetermined_vs_period_conflict exModel).1).mpr (by
    intro gb hgb p hp
    simp only [exModel] at hgb hp
    simp only [List.mem_cons, List.not_mem_nil, or_false] at hgb hp
    rcases hgb with rfl
    rcases hp with rfl | rfl <;> norm_num)

/-- Claim C10 counterexample: concrete input data in which project `B`
is listed in the model but has no `gen_storage_efficiency` value.  The
storage module's construction check passes anyway — `B` is simply
excluded from `STORAGE_GENS` — contradicting the claim that a storage
project missing a round-trip efficiency fails model construction. -/
theorem C10_missing_efficiency_counterexample :
    "B" ∈ exModel.GENERATION_PROJECTS
    ∧ exEffData.lookup "B" = none
    ∧ gen_storage_efficiency_data_complete exEffData
    ∧ "B" ∉ load_STORAGE_GENS exEffData := by
  unfold gen_storage_efficiency_data_complete load_STORAGE_GENS
  decide

/-- Claim C10 (amended): a project is treated as a storage project
exactly when a round-trip efficiency value is specified for it in the
input data (`STORAGE_GENS` is defined as the keys of the
`gen_storage_efficiency` data), so every project the model treats as
storage has a specified round-trip efficiency and the mandatory
parameter check always passes; a project missing the value is not
rejected, it is simply not modeled as storage. -/
theorem C10_storage_gens_have_efficiency (effData : List (String × ℚ))
    (g : String) :
    (g ∈ load_STORAGE_GENS effData ↔ (effData.lookup g).isSome = true)
    ∧ gen_storage_efficiency_data_complete effData := by
  constructor
  · exact (lookup_isSome_iff_mem_keys effData g).symm
  · intro g2 hg2
    exact (lookup_isSome_iff_mem_keys effData g2).mpr hg2

/-- Claim C10 witness: the amended statement instantiated on the
concrete input data, for the present project `A`. -/
theorem C10_storage_gens_have_efficiency_witness :
    ("A" ∈ load_STORAGE_GENS exEffData ↔ (exEffData.lookup "A").isSome = true)
    ∧ gen_storage_efficiency_data_complete exEffData :=
  C10_storage_gens_have_efficiency exEffData "A"

end Switch
